import Mathlib

/-!
Shallow embedding of the FastAPI companion service
(`src/external/fastapi-layer/app/main.py`) for the MCP CryptoWallet EVM
repository, together with theorems settling the specification claims about
its auth resolution, policy gating, intent translation, provider gateway
and API-key loading.

Conventions of the embedding:
* Python `dict` values are modelled as association lists built only through
  `pyDictSet` (replace-in-place or append, i.e. Python assignment order
  semantics); `pyDictGet?` is `dict.get`.
* JSON values are modelled by the inductive `Json`.
* Python string truthiness (`x or y`) is modelled explicitly: the empty
  string is falsy, `None` is falsy.
* `raise HTTPException(status, detail)` is modelled as `Except.error` of an
  `HError`; outbound network behaviour is an explicit `ProviderOutcome`
  argument, so a function whose result does not depend on that argument
  provably performs no network call.
-/

set_option autoImplicit false

namespace Spec2Proof

/-- JSON values as exchanged with the provider and carried in `metadata`. -/
inductive Json where
  | null : Json
  | bool : Bool → Json
  | num : Int → Json
  | str : String → Json
  | arr : List Json → Json
  | obj : List (String × Json) → Json

/-- A Python dict as an association list; `pyDictSet` mirrors `d[k] = v`:
replace the (unique) existing binding in place, else append. -/
def pyDictSet {α : Type} (d : List (String × α)) (k : String) (v : α) :
    List (String × α) :=
  match d with
  | [] => [(k, v)]
  | (a, b) :: t => if a = k then (k, v) :: t else (a, b) :: pyDictSet t k v

/-- `dict.get(k)` — the first binding of `k` (dicts built via `pyDictSet`
have unique keys, so first = only). -/
def pyDictGet? {α : Type} (d : List (String × α)) (k : String) : Option α :=
  match d with
  | [] => none
  | (a, b) :: t => if a = k then some b else pyDictGet? t k

/-- `{**base, **extra}` / iterated assignment: write every binding of
`extra` (in order) on top of `base`. -/
def pyDictMerge {α : Type} (base extra : List (String × α)) :
    List (String × α) :=
  extra.foldl (fun acc p => pyDictSet acc p.1 p.2) base

/-- Left-biased choice on `Option` (strict, no thunks). -/
def optOr {α : Type} (a b : Option α) : Option α :=
  match a with
  | some v => some v
  | none => b

/-- Python `s or fallback` on strings: the empty string is falsy. -/
def pyStrOr (s fallback : String) : String :=
  if s = "" then fallback else s

/-- Python `x or fallback` where `x : Optional[str]`: `None` and `""` are
falsy. -/
def pyOptStrOr (v : Option String) (fallback : String) : String :=
  match v with
  | some s => pyStrOr s fallback
  | none => fallback

/-- Python `x or y` where both sides are `Optional[str]`. -/
def pyOptOr (x y : Option String) : Option String :=
  match x with
  | some s => if s = "" then y else some s
  | none => y

/-- Truthiness of an `Optional[str]` value. -/
def truthyOpt : Option String → Bool
  | none => false
  | some s => s ≠ ""

/-- `Optional[str]` rendered as JSON (Python `None` → `null`). -/
def optStrJson : Option String → Json
  | some s => .str s
  | none => .null

/-- `Optional[int]` rendered as JSON. -/
def optIntJson : Option Int → Json
  | some n => .num n
  | none => .null

/-- `fastapi.HTTPException`: a status code plus a detail message. -/
structure HError where
  statusCode : Nat
  detail : String
deriving DecidableEq, Repr

/-- Status code of a failed computation, `none` on success. -/
def exceptStatus? {α : Type} : Except HError α → Option Nat
  | .error e => some e.statusCode
  | .ok _ => none

-- ---------------------------------------------------------------------------
-- Data model (source: pydantic models in `app/main.py`)
-- ---------------------------------------------------------------------------

/-- `NATIVE_TOKEN_SENTINEL` constant from the source. -/
def NATIVE_TOKEN_SENTINEL : String := "0xEeeeeEeeeEeEeeEeEeEeeEEEeeeeEeeeeeeeEEeE"

/-- The `Literal["free", "paid"]` tier enumeration. -/
inductive Tier where
  | free
  | paid
deriving DecidableEq, Repr

/-- The tier as the string pydantic stores. -/
def tierStr : Tier → String
  | .free => "free"
  | .paid => "paid"

/-- `ApiKeyDefinition` pydantic model. -/
structure ApiKeyDefinition where
  key : String
  tier : Tier
  scopes : Finset String := ∅
  userId : Option String := none
  organizationId : Option String := none
  label : Option String := none
deriving DecidableEq

/-- `AuthContext` pydantic model. -/
structure AuthContext where
  apiKey : ApiKeyDefinition
  tier : Tier
  scopes : Finset String
  authToken : Option String := none
  agentId : Option String := none
  sessionId : Option String := none
  walletProvider : Option String := none
deriving DecidableEq

/-- `ChainIdentifier.layer` literal. -/
inductive ChainLayer where
  | L1
  | L2
  | alt
deriving DecidableEq, Repr

/-- `ChainIdentifier` pydantic model. -/
structure ChainIdentifier where
  chainId : Int
  network : String
  layer : ChainLayer
deriving DecidableEq

/-- `TransactionMode = Union[AutomatedMode, ManualMode]`. -/
inductive TransactionMode where
  | automated (agentId : String) (auditTrailId : Option String)
  | manual (approverUserId : String) (approvalId : String)
deriving DecidableEq

/-- `SignatureIntent.type` literal. -/
inductive SignatureKind where
  | signMessage
  | signTypedData
deriving DecidableEq

/-- `SignatureIntent` pydantic model (payload is a string or object). -/
structure SignatureIntent where
  type : SignatureKind
  payload : Json

/-- `ApprovalMetadata` pydantic model. -/
structure ApprovalMetadata where
  spender : String
  token : String
  amount : String
deriving DecidableEq

/-- `TransferTarget` pydantic model. -/
structure TransferTarget where
  address : String
  amount : String
deriving DecidableEq

/-- `TransferMetadata.type` literal. -/
inductive TransferType where
  | native
  | erc20
deriving DecidableEq

/-- `TransferMetadata` pydantic model. -/
structure TransferMetadata where
  type : TransferType
  amount : String
  tokenAddress : Option String := none
  «to» : List TransferTarget
deriving DecidableEq

/-- `BridgeMetadata.router` literal. -/
inductive BridgeRouter where
  | wormhole
  | relay
  | celer
  | layerzero
deriving DecidableEq

/-- The router as the string pydantic stores. -/
def routerStr : BridgeRouter → String
  | .wormhole => "wormhole"
  | .relay => "relay"
  | .celer => "celer"
  | .layerzero => "layerzero"

/-- `BridgeMetadata` pydantic model (`slippageBps` is 0–10000 at parse
time; the bound is not needed by the claims below). -/
structure BridgeMetadata where
  destinationChainId : Int
  destinationAddress : String
  router : Option BridgeRouter := none
  slippageBps : Option Int := none
  minAmountWei : Option String := none
deriving DecidableEq

/-- `SwapMetadata.protocol` literal. -/
inductive SwapProtocol where
  | uniswap
  | pancakeswap
  | jupiter
deriving DecidableEq

/-- The protocol as the string pydantic stores. -/
def protocolStr : SwapProtocol → String
  | .uniswap => "uniswap"
  | .pancakeswap => "pancakeswap"
  | .jupiter => "jupiter"

/-- `SwapMetadata` pydantic model. -/
structure SwapMetadata where
  protocol : Option SwapProtocol := none
  tokenIn : String
  tokenOut : String
  amountIn : Option String := none
  minAmountOut : Option String := none
  slippageBps : Option Int := none
deriving DecidableEq

/-- `TransactionIntent.provider` literal. -/
inductive WalletProvider where
  | thirdweb_embedded
  | thirdweb_server
  | thirdweb_in_app
  | walletconnect_external
deriving DecidableEq

/-- The provider as the string pydantic stores. -/
def providerStr : WalletProvider → String
  | .thirdweb_embedded => "thirdweb_embedded"
  | .thirdweb_server => "thirdweb_server"
  | .thirdweb_in_app => "thirdweb_in_app"
  | .walletconnect_external => "walletconnect_external"

/-- `TransactionIntent.kind` literal. -/
inductive IntentKind where
  | sign_message
  | sign_typed_data
  | approve_erc20
  | send_native
  | send_token
  | bridge
  | swap
deriving DecidableEq, Repr

/-- The kind as the string pydantic stores. -/
def kindStr : IntentKind → String
  | .sign_message => "sign_message"
  | .sign_typed_data => "sign_typed_data"
  | .approve_erc20 => "approve_erc20"
  | .send_native => "send_native"
  | .send_token => "send_token"
  | .bridge => "bridge"
  | .swap => "swap"

/-- `TransactionIntent` pydantic model. -/
structure TransactionIntent where
  id : String
  provider : WalletProvider
  chain : ChainIdentifier
  fromAddress : String
  mode : TransactionMode
  kind : IntentKind
  signature : Option SignatureIntent := none
  approval : Option ApprovalMetadata := none
  transfer : Option TransferMetadata := none
  bridge : Option BridgeMetadata := none
  swap : Option SwapMetadata := none
  metadata : Option (List (String × Json)) := none

/-- `TransactionExecutionResult.state` literal. -/
inductive TxState where
  | pending
  | submitted
  | confirmed
  | failed
deriving DecidableEq, Repr

/-- `TransactionExecutionResult` pydantic model. `transactionHash`,
`approvalHash`, `swapHash` and `bridgeTraceId` carry the raw JSON value the
code assigns (the provider transaction id), with `Json.null` standing for
Python `None` — `dict.get` cannot distinguish an absent key from a stored
`null`, and this keeps that collapse visible. -/
structure TransactionExecutionResult where
  intentId : String
  provider : WalletProvider
  state : TxState
  transactionHash : Json := .null
  approvalHash : Json := .null
  swapHash : Json := .null
  bridgeTraceId : Json := .null
  diagnostics : Option (List (String × Json)) := none

-- ---------------------------------------------------------------------------
-- Credential store (`load_api_key_config`)
-- ---------------------------------------------------------------------------

/-- `load_api_key_config`: builds the key → definition mapping from the
already-parsed entries of the `FASTAPI_API_KEYS` array, in array order
(`parsed[definition.key] = definition` for each entry). JSON/schema errors
of the raw environment value are outside this model; for well-formed
entries the loop always succeeds. -/
def load_api_key_config (entries : List ApiKeyDefinition) :
    List (String × ApiKeyDefinition) :=
  entries.foldl (fun acc d => pyDictSet acc d.key d) []

-- ---------------------------------------------------------------------------
-- Auth resolver (`get_auth_context`) and policy gates
-- ---------------------------------------------------------------------------

/-- ASCII lowering of one character, as `str.lower` acts on the header
values relevant here. -/
def pyLowerChar (c : Char) : Char :=
  if c == 'A' then 'a' else if c == 'B' then 'b' else if c == 'C' then 'c'
  else if c == 'D' then 'd' else if c == 'E' then 'e' else if c == 'F' then 'f'
  else if c == 'G' then 'g' else if c == 'H' then 'h' else if c == 'I' then 'i'
  else if c == 'J' then 'j' else if c == 'K' then 'k' else if c == 'L' then 'l'
  else if c == 'M' then 'm' else if c == 'N' then 'n' else if c == 'O' then 'o'
  else if c == 'P' then 'p' else if c == 'Q' then 'q' else if c == 'R' then 'r'
  else if c == 'S' then 's' else if c == 'T' then 't' else if c == 'U' then 'u'
  else if c == 'V' then 'v' else if c == 'W' then 'w' else if c == 'X' then 'x'
  else if c == 'Y' then 'y' else if c == 'Z' then 'z' else c

/-- Python `str.lower`. -/
def pyLower (s : String) : String :=
  ⟨s.data.map pyLowerChar⟩

/-- The whitespace characters `str.strip` removes (the ASCII ones). -/
def pyIsSpace (c : Char) : Bool :=
  c == ' ' || c == '\t' || c == '\n' || c == '\r'

/-- Python `str.strip()`: drop leading and trailing whitespace. -/
def pyStrip (s : String) : String :=
  ⟨((s.data.dropWhile pyIsSpace).reverse.dropWhile pyIsSpace).reverse⟩

/-- Python `s.startswith(p)`. -/
def pyStartsWith (s p : String) : Bool :=
  s.data.take p.data.length == p.data

/-- Python character slicing `s[n:]`. -/
def pyDrop (s : String) (n : Nat) : String :=
  ⟨s.data.drop n⟩

/-- Python `s.split(",")` (auxiliary walk). -/
def pySplitCommaAux : List Char → List Char → List String
  | [], acc => [⟨acc.reverse⟩]
  | c :: rest, acc =>
    if c == ',' then ⟨acc.reverse⟩ :: pySplitCommaAux rest []
    else pySplitCommaAux rest (c :: acc)

/-- Python `s.split(",")`: the comma-separated pieces, empties kept. -/
def pySplitComma (s : String) : List String :=
  pySplitCommaAux s.data []

/-- The inbound headers `get_auth_context` reads. `some ""` is a header
present with an empty value; `none` is an absent header. -/
structure Headers where
  xApiKey : Option String := none
  xNexTier : Option String := none
  authorization : Option String := none
  xNexRequiredScopes : Option String := none
  xNexAgentId : Option String := none
  xNexSessionId : Option String := none
  xNexWalletProvider : Option String := none

/-- `_normalize_scope_set`: strip every value, drop the ones whose strip is
empty. -/
def normalizeScopeSet (values : Finset String) : Finset String :=
  (values.filter (fun v => pyStrip v ≠ "")).image pyStrip

/-- Bearer-token extraction inside `get_auth_context`: an absent or empty
header gives no token; otherwise the stripped value, with a
case-insensitive `Bearer ` prefix removed (and the remainder stripped). -/
def bearerTokenOf (authorization : Option String) : Option String :=
  match authorization with
  | none => none
  | some a =>
    if a = "" then none
    else
      let t := pyStrip a
      if pyStartsWith (pyLower t) "bearer " then some (pyStrip (pyDrop t 7))
      else some t

/-- Scope-set assembly inside `get_auth_context`: configured key scopes
unioned with the comma-separated `X-Nex-Required-Scopes` header entries
(each stripped, empties dropped). -/
def scopesOf (apiKey : ApiKeyDefinition) (scopesHeader : Option String) :
    Finset String :=
  match scopesHeader with
  | none => apiKey.scopes
  | some sh =>
    if sh = "" then apiKey.scopes
    else
      apiKey.scopes ∪
        (((pySplitComma sh).map pyStrip).filter (fun s => s ≠ "")).toFinset

/-- Detail text of the tier-mismatch error. -/
def tierMismatchDetail (expected received : String) : String :=
  "API key tier mismatch. Expected " ++ expected ++ ", received " ++ received ++ "."

/-- `get_auth_context`: API-key lookup, tier-header cross-check, bearer
token extraction and scope union, exactly in source order. -/
def get_auth_context (apiKeys : List (String × ApiKeyDefinition))
    (h : Headers) : Except HError AuthContext :=
  match h.xApiKey with
  | none => .error ⟨401, "X-API-Key header required."⟩
  | some kh =>
    if kh = "" then .error ⟨401, "X-API-Key header required."⟩
    else
      match pyDictGet? apiKeys kh with
      | none => .error ⟨401, "Invalid API key."⟩
      | some apiKey =>
        let requestedTier :=
          pyLower (match h.xNexTier with
                   | some v => v
                   | none => tierStr apiKey.tier)
        if ¬(requestedTier = "free" ∨ requestedTier = "paid") then
          .error ⟨400, "Invalid X-Nex-Tier header."⟩
        else if requestedTier ≠ tierStr apiKey.tier then
          .error ⟨403, tierMismatchDetail (tierStr apiKey.tier) requestedTier⟩
        else
          .ok { apiKey := apiKey
                tier := apiKey.tier
                scopes := normalizeScopeSet (scopesOf apiKey h.xNexRequiredScopes)
                authToken := bearerTokenOf h.authorization
                agentId := h.xNexAgentId
                sessionId := h.xNexSessionId
                walletProvider := h.xNexWalletProvider }

/-- `require_scope`. -/
def require_scope (auth : AuthContext) (scope : String) : Except HError Unit :=
  if scope ∈ auth.scopes then .ok ()
  else .error ⟨403, "Operation requires scope " ++ scope ++ "."⟩

/-- `require_paid_tier`. -/
def require_paid_tier (auth : AuthContext) (feature : String) :
    Except HError Unit :=
  if auth.tier = Tier.free then
    .error ⟨403, feature ++ " is unavailable on the free tier."⟩
  else .ok ()

-- ---------------------------------------------------------------------------
-- Provider gateway (`_thirdweb_headers`, `_post_thirdweb`)
-- ---------------------------------------------------------------------------

/-- The process-level thirdweb credential configuration, as returned by
`get_thirdweb_client_id` / `get_thirdweb_secret_key` (those return `None`
for an absent or all-whitespace environment value; `some ""` is kept in
the model so that the source truthiness tests stay visible). -/
structure ThirdwebConfig where
  clientId : Option String := none
  secretKey : Option String := none

/-- What the single outbound POST to the provider does: a network-level
`httpx.HTTPError`, or a response with a status code, a body text and the
body parsed as JSON. -/
inductive ProviderOutcome where
  | netFailure (msg : String)
  | response (statusCode : Nat) (text : String) (json : Json)

/-- `_thirdweb_headers`: build the outbound header dict and fail with a 500
configuration error when neither credential header was added. -/
def thirdwebHeaders (cfg : ThirdwebConfig) :
    Except HError (List (String × String)) :=
  let hs : List (String × String) := [("Content-Type", "application/json")]
  let hs := match cfg.clientId with
    | some c => if c ≠ "" then hs ++ [("x-client-id", c)] else hs
    | none => hs
  let hs := match cfg.secretKey with
    | some s => if s ≠ "" then hs ++ [("x-secret-key", s)] else hs
    | none => hs
  if (pyDictGet? hs "x-client-id").isNone ∧ (pyDictGet? hs "x-secret-key").isNone then
    .error ⟨500, "Thirdweb credentials are not configured. Set THIRDWEB_SECRET_KEY or THIRDWEB_CLIENT_ID."⟩
  else
    .ok hs

/-- `_post_thirdweb`: header check first (before any network activity),
then 502 on network failure or provider 5xx, passthrough status with the
body text (or a fixed fallback when the body is empty) on provider 4xx,
and the parsed JSON body on success. The path and payload of the POST do
not influence the error behaviour and are omitted. -/
def postThirdweb (cfg : ThirdwebConfig) (outcome : ProviderOutcome) :
    Except HError Json :=
  match thirdwebHeaders cfg with
  | .error e => .error e
  | .ok _ =>
    match outcome with
    | .netFailure msg =>
      .error ⟨502, "Failed to reach thirdweb API: " ++ msg⟩
    | .response st text js =>
      if st ≥ 500 then
        .error ⟨502, "Thirdweb API returned an upstream error."⟩
      else if st ≥ 400 then
        .error ⟨st, pyStrOr text "Thirdweb request rejected."⟩
      else
        .ok js

/-- `result.get("result", {}).get("transactionId")` on the provider
response: `Json.null` both for an absent key and for a stored `null`
(Python returns `None` in both cases); a non-dict at either level raises
(an unhandled `AttributeError`, surfacing as a 500). -/
def getTransactionId (js : Json) : Except HError Json :=
  match js with
  | .obj fields =>
    match (pyDictGet? fields "result").getD (.obj []) with
    | .obj inner => .ok ((pyDictGet? inner "transactionId").getD .null)
    | _ => .error ⟨500, "Internal Server Error"⟩
  | _ => .error ⟨500, "Internal Server Error"⟩

-- ---------------------------------------------------------------------------
-- Provider translator — bridge (`_execute_bridge`)
-- ---------------------------------------------------------------------------

/-- The `metadata` entry of the bridge payload: the four base keys, with
the caller-supplied `intent.metadata` (or `{}`) written on top. -/
def bridge_metadata_dict (intent : TransactionIntent) (bridge : BridgeMetadata) :
    List (String × Json) :=
  pyDictMerge
    [("destinationAddress", .str (pyStrOr bridge.destinationAddress intent.fromAddress)),
     ("router", optStrJson (bridge.router.map routerStr)),
     ("intentId", .str intent.id),
     ("provider", .str (providerStr intent.provider))]
    (intent.metadata.getD [])

/-- The provider request body built by `_execute_bridge` once both
sub-objects are known to be present. -/
def bridge_payload (intent : TransactionIntent) (transfer : TransferMetadata)
    (bridge : BridgeMetadata) : List (String × Json) :=
  let tokenAddress := pyOptStrOr transfer.tokenAddress NATIVE_TOKEN_SENTINEL
  let amountWei := transfer.amount
  [("from", .str intent.fromAddress),
   ("exact", .str "input"),
   ("tokenIn", .obj
     [("address", .str tokenAddress),
      ("chainId", .num intent.chain.chainId),
      ("amount", .str amountWei)]),
   ("tokenOut", .obj
     [("address", .str tokenAddress),
      ("chainId", .num bridge.destinationChainId),
      ("minAmount", optStrJson bridge.minAmountWei)]),
   ("slippageToleranceBps", optIntJson bridge.slippageBps),
   ("metadata", .obj (bridge_metadata_dict intent bridge))]

/-- `_execute_bridge`: sub-object precondition, translation, provider POST,
response normalization. -/
def execute_bridge (cfg : ThirdwebConfig) (outcome : ProviderOutcome)
    (intent : TransactionIntent) : Except HError TransactionExecutionResult :=
  match intent.transfer, intent.bridge with
  | some transfer, some bridge =>
    let _payload := bridge_payload intent transfer bridge
    match postThirdweb cfg outcome with
    | .error e => .error e
    | .ok result =>
      match getTransactionId result with
      | .error e => .error e
      | .ok transactionId =>
        .ok { intentId := intent.id
              provider := intent.provider
              state := .submitted
              bridgeTraceId := transactionId
              diagnostics := some [("thirdweb", result)] }
  | _, _ => .error ⟨400, "Bridge intents require transfer and bridge metadata."⟩

-- ---------------------------------------------------------------------------
-- Provider translator — swap (`_execute_swap`)
-- ---------------------------------------------------------------------------

/-- The `metadata` entry of the swap payload. -/
def swap_metadata_dict (intent : TransactionIntent) (swap : SwapMetadata) :
    List (String × Json) :=
  pyDictMerge
    [("protocol", optStrJson (swap.protocol.map protocolStr)),
     ("intentId", .str intent.id),
     ("provider", .str (providerStr intent.provider))]
    (intent.metadata.getD [])

/-- The provider request body built by `_execute_swap` for a resolved
input amount. -/
def swap_payload (intent : TransactionIntent) (swap : SwapMetadata)
    (amountIn : String) : List (String × Json) :=
  [("from", .str intent.fromAddress),
   ("exact", .str "input"),
   ("tokenIn", .obj
     [("address", .str swap.tokenIn),
      ("chainId", .num intent.chain.chainId),
      ("amount", .str amountIn)]),
   ("tokenOut", .obj
     [("address", .str swap.tokenOut),
      ("chainId", .num intent.chain.chainId),
      ("minAmount", optStrJson swap.minAmountOut)]),
   ("slippageToleranceBps", optIntJson swap.slippageBps),
   ("metadata", .obj (swap_metadata_dict intent swap))]

/-- The validation-plus-translation front half of `_execute_swap`:
`swap.amountIn or (intent.transfer.amount if intent.transfer else None)`,
a 400 when the sub-object is missing, a 400 when the resolved amount is
`None`, otherwise the request body. -/
def swap_translate (intent : TransactionIntent) :
    Except HError (List (String × Json)) :=
  match intent.swap with
  | none => .error ⟨400, "Swap intents require swap metadata."⟩
  | some swap =>
    match pyOptOr swap.amountIn (intent.transfer.map (·.amount)) with
    | none => .error ⟨400, "Swap amount is required."⟩
    | some amountIn => .ok (swap_payload intent swap amountIn)

/-- `_execute_swap`: translation, provider POST, response normalization. -/
def execute_swap (cfg : ThirdwebConfig) (outcome : ProviderOutcome)
    (intent : TransactionIntent) : Except HError TransactionExecutionResult :=
  match swap_translate intent with
  | .error e => .error e
  | .ok _payload =>
    match postThirdweb cfg outcome with
    | .error e => .error e
    | .ok result =>
      match getTransactionId result with
      | .error e => .error e
      | .ok transactionId =>
        .ok { intentId := intent.id
              provider := intent.provider
              state := .submitted
              swapHash := transactionId
              diagnostics := some [("thirdweb", result)] }

-- ---------------------------------------------------------------------------
-- Transaction endpoint (`execute_transaction_intent`)
-- ---------------------------------------------------------------------------

/-- The `/wallets/intents` handler body, after `get_auth_context` produced
`auth`: kind dispatch, per-kind scope and tier gates, translation. -/
def execute_transaction_intent (cfg : ThirdwebConfig)
    (outcome : ProviderOutcome) (auth : AuthContext)
    (intent : TransactionIntent) : Except HError TransactionExecutionResult :=
  if intent.kind = IntentKind.bridge then
    match require_scope auth "wallet:bridge" with
    | .error e => .error e
    | .ok _ =>
      match require_paid_tier auth "Cross-chain bridge execution" with
      | .error e => .error e
      | .ok _ => execute_bridge cfg outcome intent
  else if intent.kind = IntentKind.swap then
    match require_scope auth "wallet:swap" with
    | .error e => .error e
    | .ok _ =>
      match require_paid_tier auth "Token swap execution" with
      | .error e => .error e
      | .ok _ => execute_swap cfg outcome intent
  else
    .error ⟨501, "Transaction kind " ++ kindStr intent.kind ++ " is not supported by this service."⟩

-- ---------------------------------------------------------------------------
-- Observation helpers and concrete sample inputs
-- ---------------------------------------------------------------------------

/-- The auth token of a successfully resolved context. -/
def authTokenOf : Except HError AuthContext → Option String
  | .ok c => c.authToken
  | .error _ => none

/-- The `tokenIn.amount` field of a successfully translated swap request. -/
def translatedSwapAmount? (intent : TransactionIntent) : Option Json :=
  match swap_translate intent with
  | .ok p =>
    match pyDictGet? p "tokenIn" with
    | some (.obj fields) => pyDictGet? fields "amount"
    | _ => none
  | .error _ => none

/-- The token address as the amended claim C1 words it: `transfer.tokenAddress`,
or the reserved native-token sentinel when that field is absent or empty. -/
def claimedBridgeTokenAddress (transfer : TransferMetadata) : String :=
  match transfer.tokenAddress with
  | none => NATIVE_TOKEN_SENTINEL
  | some s => if s = "" then NATIVE_TOKEN_SENTINEL else s

/-- A sample chain. -/
def chain0 : ChainIdentifier := { chainId := 1, network := "ethereum", layer := .L1 }

/-- A sample transaction mode. -/
def mode0 : TransactionMode := .automated "agent-1" none

/-- A sample transfer sub-object with a nonempty token address. -/
def transfer0 : TransferMetadata :=
  { type := .erc20, amount := "1000", tokenAddress := some "0xToken", «to» := [] }

/-- A transfer sub-object whose token address is present but empty. -/
def transferEmptyToken : TransferMetadata :=
  { type := .native, amount := "1000", tokenAddress := some "", «to» := [] }

/-- A transfer sub-object with amount `"42"` (swap fallback source). -/
def transfer42 : TransferMetadata :=
  { type := .erc20, amount := "42", tokenAddress := some "0xToken", «to» := [] }

/-- A sample bridge sub-object. -/
def bridge0 : BridgeMetadata :=
  { destinationChainId := 137, destinationAddress := "0xDest",
    router := some .relay, slippageBps := some 50, minAmountWei := some "990" }

/-- A swap sub-object whose `amountIn` is present but empty. -/
def swapEmptyAmount : SwapMetadata :=
  { tokenIn := "0xA", tokenOut := "0xB", amountIn := some "" }

/-- A swap sub-object with no `amountIn`. -/
def swapNoAmount : SwapMetadata :=
  { tokenIn := "0xA", tokenOut := "0xB" }

/-- Builds a bridge-kind intent over the sample chain and mode. -/
def bridgeIntent (t : Option TransferMetadata) (b : Option BridgeMetadata)
    (md : Option (List (String × Json))) : TransactionIntent :=
  { id := "intent-1", provider := .thirdweb_server, chain := chain0,
    fromAddress := "0xFrom", mode := mode0, kind := .bridge,
    transfer := t, bridge := b, metadata := md }

/-- Builds a swap-kind intent over the sample chain and mode. -/
def swapIntent (s : Option SwapMetadata) (t : Option TransferMetadata)
    (md : Option (List (String × Json))) : TransactionIntent :=
  { id := "intent-2", provider := .thirdweb_server, chain := chain0,
    fromAddress := "0xFrom", mode := mode0, kind := .swap,
    transfer := t, swap := s, metadata := md }

/-- A free-tier key definition. -/
def keyFree : ApiKeyDefinition := { key := "k1", tier := .free }

/-- A paid-tier key definition with the bridge scope. -/
def keyPaidBridge : ApiKeyDefinition :=
  { key := "k2", tier := .paid, scopes := {"wallet:bridge"} }

/-- A credential store holding only the free key. -/
def keysFree : List (String × ApiKeyDefinition) := [("k1", keyFree)]

/-- A paid-tier context with no scopes. -/
def authPaidNoScope : AuthContext :=
  { apiKey := keyPaidBridge, tier := .paid, scopes := ∅ }

/-- A free-tier context holding both wallet scopes. -/
def authFreeScoped : AuthContext :=
  { apiKey := keyFree, tier := .free, scopes := {"wallet:bridge", "wallet:swap"} }

/-- A provider configuration with only the secret key set. -/
def cfg0 : ThirdwebConfig := { secretKey := some "sk" }

/-- A provider configuration with no usable credential. -/
def cfgNone : ThirdwebConfig := { clientId := some "" }

/-- A 2xx provider response carrying a transaction id. -/
def okOutcome : ProviderOutcome :=
  .response 200 ""
    (.obj [("result", .obj [("transactionId", .str "tx-1")])])

-- ---------------------------------------------------------------------------
-- General lemmas about the Python-dict model
-- ---------------------------------------------------------------------------

@[simp]
theorem optOr_none_left {α : Type} (b : Option α) : optOr none b = b := rfl

@[simp]
theorem optOr_some_left {α : Type} (a : α) (b : Option α) :
    optOr (some a) b = some a := rfl

@[simp]
theorem optOr_none_right {α : Type} (a : Option α) : optOr a none = a := by
  cases a <;> rfl

theorem optOr_assoc {α : Type} (a b c : Option α) :
    optOr (optOr a b) c = optOr a (optOr b c) := by
  cases a <;> rfl

theorem map_optOr {α β : Type} (f : α → β) (a b : Option α) :
    (optOr a b).map f = optOr (a.map f) (b.map f) := by
  cases a <;> rfl

theorem pyDictGet?_set {α : Type} (d : List (String × α)) (k k' : String) (v : α) :
    pyDictGet? (pyDictSet d k v) k' = if k = k' then some v else pyDictGet? d k' := by
  induction d with
  | nil => simp [pyDictSet, pyDictGet?]
  | cons p t ih =>
    obtain ⟨a, b⟩ := p
    by_cases hak : a = k
    · subst hak
      by_cases h : a = k' <;> simp [pyDictSet, pyDictGet?, h]
    · simp only [pyDictSet, if_neg hak, pyDictGet?]
      by_cases hak' : a = k'
      · subst hak'
        have : ¬ k = a := fun hk => hak hk.symm
        simp [this]
      · simp [hak', ih]

theorem find?_concat {α : Type} (p : α → Bool) (l : List α) (b : α) :
    (l ++ [b]).find? p = optOr (l.find? p) (if p b then some b else none) := by
  induction l with
  | nil => cases hb : p b <;> simp [List.find?, hb]
  | cons a t ih => cases ha : p a <;> simp [List.find?, ha, ih]

theorem pyDictGet?_foldl_set {α β : Type} (keyf : β → String) (valf : β → α)
    (l : List β) :
    ∀ (acc : List (String × α)) (k : String),
      pyDictGet? (l.foldl (fun m b => pyDictSet m (keyf b) (valf b)) acc) k
        = optOr ((l.reverse.find? (fun b => keyf b == k)).map valf)
            (pyDictGet? acc k) := by
  induction l with
  | nil => intro acc k; simp
  | cons b t ih =>
    intro acc k
    simp only [List.foldl_cons, List.reverse_cons]
    rw [ih, find?_concat, map_optOr, optOr_assoc, pyDictGet?_set]
    by_cases hk : keyf b = k
    · simp [hk]
    · simp [hk]

theorem pyDictGet?_merge {α : Type} (base extra : List (String × α)) (k : String) :
    pyDictGet? (pyDictMerge base extra) k
      = optOr ((extra.reverse.find? (fun p => p.1 == k)).map Prod.snd)
          (pyDictGet? base k) := by
  have h := pyDictGet?_foldl_set (fun p : String × α => p.1) (fun p => p.2) extra base k
  simpa [pyDictMerge] using h

-- ---------------------------------------------------------------------------
-- Claim C10 — credential store last-writer-wins
-- ---------------------------------------------------------------------------

/-- C10: loading any API-key configuration array always produces a mapping
(never a duplicate-key rejection), and a key that occurs in several
definitions is associated with the last such definition in array order.
`entries.reverse.find?` is exactly "the last definition whose `key` field
is `k`". -/
theorem c10_load_api_keys_last_writer_wins (entries : List ApiKeyDefinition)
    (k : String) :
    pyDictGet? (load_api_key_config entries) k
      = entries.reverse.find? (fun d => d.key == k) := by
  have h := pyDictGet?_foldl_set (fun d : ApiKeyDefinition => d.key)
    (fun d => d) entries [] k
  simpa [load_api_key_config, pyDictGet?] using h

-- ---------------------------------------------------------------------------
-- Claim C7 — bridge metadata merge
-- ---------------------------------------------------------------------------

/-- C7: the `metadata` object of the translated bridge request is the base
mapping {destinationAddress (with the `fromAddress` fallback when the
bridge destination address is empty), router, intentId, provider} with the
caller-supplied `intent.metadata` layered on top: on any key the caller
metadata's (last) binding wins, and the base value is used only when the
key does not occur in `intent.metadata`. -/
theorem c7_bridge_metadata_last_write_wins (intent : TransactionIntent)
    (transfer : TransferMetadata) (bridge : BridgeMetadata)
    (_ht : intent.transfer = some transfer) (_hb : intent.bridge = some bridge) :
    pyDictGet? (bridge_payload intent transfer bridge) "metadata"
        = some (.obj (bridge_metadata_dict intent bridge))
    ∧ ∀ k : String,
        pyDictGet? (bridge_metadata_dict intent bridge) k
          = optOr
              (((intent.metadata.getD []).reverse.find? (fun p => p.1 == k)).map Prod.snd)
              (pyDictGet?
                [("destinationAddress",
                    Json.str (if bridge.destinationAddress = "" then intent.fromAddress
                              else bridge.destinationAddress)),
                 ("router", optStrJson (bridge.router.map routerStr)),
                 ("intentId", Json.str intent.id),
                 ("provider", Json.str (providerStr intent.provider))] k) := by
  constructor
  · simp [bridge_payload, pyDictGet?]
  · intro k
    simp only [bridge_metadata_dict, pyDictGet?_merge, pyStrOr]

/-- C7 witness: the collision case, on a concrete intent whose caller
metadata overrides the `router` base key. -/
theorem c7_witness :
    pyDictGet?
        (bridge_metadata_dict
          (bridgeIntent (some transfer0) (some bridge0)
            (some [("router", Json.str "custom")])) bridge0) "router"
      = optOr
          ((((bridgeIntent (some transfer0) (some bridge0)
              (some [("router", Json.str "custom")])).metadata.getD
                []).reverse.find? (fun p => p.1 == "router")).map Prod.snd)
          (pyDictGet?
            [("destinationAddress",
                Json.str (if bridge0.destinationAddress = ""
                          then (bridgeIntent (some transfer0) (some bridge0)
                                (some [("router", Json.str "custom")])).fromAddress
                          else bridge0.destinationAddress)),
             ("router", optStrJson (bridge0.router.map routerStr)),
             ("intentId",
                Json.str (bridgeIntent (some transfer0) (some bridge0)
                  (some [("router", Json.str "custom")])).id),
             ("provider",
                Json.str (providerStr (bridgeIntent (some transfer0) (some bridge0)
                  (some [("router", Json.str "custom")])).provider))] "router") :=
  (c7_bridge_metadata_last_write_wins
    (bridgeIntent (some transfer0) (some bridge0)
      (some [("router", Json.str "custom")]))
    transfer0 bridge0 rfl rfl).2 "router"

-- ---------------------------------------------------------------------------
-- Claim C1 — bridge translation field mapping
-- ---------------------------------------------------------------------------

/-- C1 (amended): for every bridge intent with both sub-objects present the
translated request has `from` = intent.fromAddress, `exact` = "input",
`tokenIn.address` = `tokenOut.address` = transfer.tokenAddress resolved
with the native-token sentinel when that field is absent or empty (the
code treats the empty string like absence), `tokenIn.chainId` =
intent.chain.chainId, `tokenIn.amount` = transfer.amount,
`tokenOut.chainId` = bridge.destinationChainId, `tokenOut.minAmount` =
bridge.minAmountWei, `slippageToleranceBps` = bridge.slippageBps — and the
non-metadata fields do not depend on `intent.metadata`. -/
theorem c1_bridge_translation (intent : TransactionIntent)
    (transfer : TransferMetadata) (bridge : BridgeMetadata)
    (_ht : intent.transfer = some transfer) (_hb : intent.bridge = some bridge) :
    pyDictGet? (bridge_payload intent transfer bridge) "from"
        = some (.str intent.fromAddress)
    ∧ pyDictGet? (bridge_payload intent transfer bridge) "exact"
        = some (.str "input")
    ∧ pyDictGet? (bridge_payload intent transfer bridge) "tokenIn"
        = some (.obj
            [("address", .str (claimedBridgeTokenAddress transfer)),
             ("chainId", .num intent.chain.chainId),
             ("amount", .str transfer.amount)])
    ∧ pyDictGet? (bridge_payload intent transfer bridge) "tokenOut"
        = some (.obj
            [("address", .str (claimedBridgeTokenAddress transfer)),
             ("chainId", .num bridge.destinationChainId),
             ("minAmount", optStrJson bridge.minAmountWei)])
    ∧ pyDictGet? (bridge_payload intent transfer bridge) "slippageToleranceBps"
        = some (optIntJson bridge.slippageBps)
    ∧ ∀ md : Option (List (String × Json)), ∀ key : String, key ≠ "metadata" →
        pyDictGet? (bridge_payload { intent with metadata := md } transfer bridge) key
          = pyDictGet? (bridge_payload intent transfer bridge) key := by
  have haddr : pyOptStrOr transfer.tokenAddress NATIVE_TOKEN_SENTINEL
      = claimedBridgeTokenAddress transfer := by
    rcases hta : transfer.tokenAddress with _ | s
    · simp [pyOptStrOr, claimedBridgeTokenAddress, hta]
    · by_cases hs : s = "" <;>
        simp [pyOptStrOr, pyStrOr, claimedBridgeTokenAddress, hta, hs]
  refine ⟨?_, ?_, ?_, ?_, ?_, ?_⟩
  · simp [bridge_payload, pyDictGet?]
  · simp [bridge_payload, pyDictGet?]
  · simp [bridge_payload, pyDictGet?, haddr]
  · simp [bridge_payload, pyDictGet?, haddr]
  · simp [bridge_payload, pyDictGet?]
  · intro md key hkey
    have hms : ¬ ("metadata" = key) := fun h => hkey h.symm
    simp [bridge_payload, pyDictGet?, hms]

/-- C1 counterexample: with `transfer.tokenAddress` present but empty the
code resolves the token address to the native sentinel, while the claim as
stated requires the (present) `tokenAddress` value itself — so the claim
fails at this input. -/
theorem c1_counterexample :
    transferEmptyToken.tokenAddress = some ""
    ∧ pyDictGet?
        (bridge_payload (bridgeIntent (some transferEmptyToken) (some bridge0) none)
          transferEmptyToken bridge0) "tokenIn"
        = some (.obj
            [("address", .str NATIVE_TOKEN_SENTINEL),
             ("chainId", .num 1),
             ("amount", .str "1000")])
    ∧ NATIVE_TOKEN_SENTINEL ≠ "" :=
  ⟨rfl, rfl, by decide⟩

/-- C1 witness: the amended mapping at a concrete intent with a nonempty
token address. -/
theorem c1_witness :
    pyDictGet?
        (bridge_payload (bridgeIntent (some transfer0) (some bridge0) none)
          transfer0 bridge0) "tokenIn"
      = some (.obj
          [("address", .str (claimedBridgeTokenAddress transfer0)),
           ("chainId", .num (bridgeIntent (some transfer0) (some bridge0) none).chain.chainId),
           ("amount", .str transfer0.amount)]) :=
  (c1_bridge_translation (bridgeIntent (some transfer0) (some bridge0) none)
    transfer0 bridge0 rfl rfl).2.2.1

-- ---------------------------------------------------------------------------
-- Claim C2 — swap amount resolution
-- ---------------------------------------------------------------------------

/-- C2 (amended): for a swap intent the translated request's
`tokenIn.amount` is `swap.amountIn` when that is present and nonempty;
when `swap.amountIn` is absent or empty it falls back to `transfer.amount`
if a transfer sub-object is present; when `swap.amountIn` is absent or
empty and there is no transfer, the operation fails with BadRequest (400,
"Swap amount is required.") for every provider configuration and outcome
(so no provider call is made). -/
theorem c2_swap_amount_resolution (intent : TransactionIntent)
    (swap : SwapMetadata) (hs : intent.swap = some swap) :
    (∀ a : String, swap.amountIn = some a → a ≠ "" →
      ∀ p, swap_translate intent = .ok p →
        pyDictGet? p "tokenIn"
          = some (.obj
              [("address", .str swap.tokenIn),
               ("chainId", .num intent.chain.chainId),
               ("amount", .str a)]))
    ∧ ((swap.amountIn = none ∨ swap.amountIn = some "") →
        ∀ t : TransferMetadata, intent.transfer = some t →
          ∀ p, swap_translate intent = .ok p →
            pyDictGet? p "tokenIn"
              = some (.obj
                  [("address", .str swap.tokenIn),
                   ("chainId", .num intent.chain.chainId),
                   ("amount", .str t.amount)]))
    ∧ ((swap.amountIn = none ∨ swap.amountIn = some "") → intent.transfer = none →
        ∀ (cfg : ThirdwebConfig) (outcome : ProviderOutcome),
          execute_swap cfg outcome intent
            = .error ⟨400, "Swap amount is required."⟩) := by
  refine ⟨?_, ?_, ?_⟩
  · intro a ha hne p hp
    rw [swap_translate, hs] at hp
    simp only [pyOptOr, ha, if_neg hne] at hp
    cases hp
    simp [swap_payload, pyDictGet?]
  · intro hempty t htr p hp
    rw [swap_translate, hs] at hp
    rcases hempty with he | he <;>
      · simp only [pyOptOr, he, if_pos rfl, htr, Option.map_some'] at hp
        cases hp
        simp [swap_payload, pyDictGet?]
  · intro hempty htr cfg outcome
    rw [execute_swap, swap_translate, hs]
    rcases hempty with he | he <;>
      simp [pyOptOr, he, htr]

/-- C2 counterexample: with `swap.amountIn` present but empty and a
transfer sub-object present, the code uses `transfer.amount` ("42"), while
the claim as stated requires the present `swap.amountIn` value ("") to be
used — so the claim fails at this input. -/
theorem c2_counterexample :
    (swapIntent (some swapEmptyAmount) (some transfer42) none).swap
        = some swapEmptyAmount
    ∧ swapEmptyAmount.amountIn = some ""
    ∧ translatedSwapAmount? (swapIntent (some swapEmptyAmount) (some transfer42) none)
        = some (.str "42")
    ∧ Json.str "42" ≠ Json.str "" :=
  ⟨rfl, rfl, rfl, by simp⟩

/-- C2 witness: the amended resolution at concrete inputs — an explicit
nonempty `amountIn` is used as is, and the missing-amount case fails with
the 400 error for an arbitrary configuration and outcome. -/
theorem c2_witness :
    execute_swap cfg0 okOutcome (swapIntent (some swapNoAmount) none none)
      = .error ⟨400, "Swap amount is required."⟩ :=
  (c2_swap_amount_resolution (swapIntent (some swapNoAmount) none none)
    swapNoAmount rfl).2.2 (Or.inl rfl) rfl cfg0 okOutcome

-- ---------------------------------------------------------------------------
-- Claim C3 — scope and tier gates
-- ---------------------------------------------------------------------------

/-- C3: for a bridge intent, a context that lacks the `wallet:bridge`
scope or has the free tier (even with the scope) makes the request fail
with Forbidden (403); analogously for swap intents with `wallet:swap`.
The status is 403 whichever of the two conditions is violated. -/
theorem c3_gates_forbidden (cfg : ThirdwebConfig) (outcome : ProviderOutcome)
    (auth : AuthContext) (intent : TransactionIntent) :
    (intent.kind = IntentKind.bridge →
      ("wallet:bridge" ∉ auth.scopes ∨ auth.tier = Tier.free) →
      exceptStatus? (execute_transaction_intent cfg outcome auth intent) = some 403)
    ∧ (intent.kind = IntentKind.swap →
      ("wallet:swap" ∉ auth.scopes ∨ auth.tier = Tier.free) →
      exceptStatus? (execute_transaction_intent cfg outcome auth intent) = some 403) := by
  constructor
  · intro hk hviol
    rcases hviol with hscope | htier
    · simp [execute_transaction_intent, hk, require_scope, hscope, exceptStatus?]
    · by_cases hscope : "wallet:bridge" ∈ auth.scopes
      · simp [execute_transaction_intent, hk, require_scope, hscope,
          require_paid_tier, htier, exceptStatus?]
      · simp [execute_transaction_intent, hk, require_scope, hscope, exceptStatus?]
  · intro hk hviol
    have hnb : ¬ (intent.kind = IntentKind.bridge) := by
      rw [hk]; intro h; cases h
    rcases hviol with hscope | htier
    · simp [execute_transaction_intent, hk, hnb, require_scope, hscope, exceptStatus?]
    · by_cases hscope : "wallet:swap" ∈ auth.scopes
      · simp [execute_transaction_intent, hk, hnb, require_scope, hscope,
          require_paid_tier, htier, exceptStatus?]
      · simp [execute_transaction_intent, hk, hnb, require_scope, hscope, exceptStatus?]

/-- C3 witness: a paid-tier context with no scopes is rejected with 403 on
a bridge intent, and a free-tier context holding both scopes is rejected
with 403 on a swap intent. -/
theorem c3_witness :
    exceptStatus?
        (execute_transaction_intent cfg0 okOutcome authPaidNoScope
          (bridgeIntent (some transfer0) (some bridge0) none)) = some 403
    ∧ exceptStatus?
        (execute_transaction_intent cfg0 okOutcome authFreeScoped
          (swapIntent (some swapNoAmount) (some transfer42) none)) = some 403 :=
  ⟨(c3_gates_forbidden cfg0 okOutcome authPaidNoScope
      (bridgeIntent (some transfer0) (some bridge0) none)).1 rfl
      (Or.inl (by decide)),
   (c3_gates_forbidden cfg0 okOutcome authFreeScoped
      (swapIntent (some swapNoAmount) (some transfer42) none)).2 rfl
      (Or.inr rfl)⟩

-- ---------------------------------------------------------------------------
-- Claim C5 — unsupported intent kinds
-- ---------------------------------------------------------------------------

/-- C5: for each of the five unsupported kinds the request fails with
NotImplemented (501), with an error value that does not depend on the
context at all — so neither the scope check nor the tier check is ever
evaluated for those kinds. -/
theorem c5_unsupported_kinds (cfg : ThirdwebConfig) (outcome : ProviderOutcome)
    (auth : AuthContext) (intent : TransactionIntent)
    (hk : intent.kind = IntentKind.sign_message
        ∨ intent.kind = IntentKind.sign_typed_data
        ∨ intent.kind = IntentKind.approve_erc20
        ∨ intent.kind = IntentKind.send_native
        ∨ intent.kind = IntentKind.send_token) :
    execute_transaction_intent cfg outcome auth intent
      = .error ⟨501, "Transaction kind " ++ kindStr intent.kind
          ++ " is not supported by this service."⟩ := by
  rcases hk with h | h | h | h | h <;>
    simp [execute_transaction_intent, h, kindStr]

/-- C5 witness: an `approve_erc20` intent is rejected with the 501 error
for a concrete context. -/
theorem c5_witness :
    execute_transaction_intent cfg0 okOutcome authPaidNoScope
        { id := "intent-3", provider := .thirdweb_server, chain := chain0,
          fromAddress := "0xFrom", mode := mode0, kind := .approve_erc20 }
      = .error ⟨501, "Transaction kind approve_erc20 is not supported by this service."⟩ :=
  c5_unsupported_kinds cfg0 okOutcome authPaidNoScope
    { id := "intent-3", provider := .thirdweb_server, chain := chain0,
      fromAddress := "0xFrom", mode := mode0, kind := .approve_erc20 }
    (Or.inr (Or.inr (Or.inl rfl)))

-- ---------------------------------------------------------------------------
-- Claim C8 — provider gateway error behaviour
-- ---------------------------------------------------------------------------

/-- With no usable credential, `_thirdweb_headers` fails with the 500
configuration error. -/
theorem thirdwebHeaders_error_of_no_cred (cfg : ThirdwebConfig)
    (hc : truthyOpt cfg.clientId = false) (hs : truthyOpt cfg.secretKey = false) :
    thirdwebHeaders cfg
      = .error ⟨500, "Thirdweb credentials are not configured. Set THIRDWEB_SECRET_KEY or THIRDWEB_CLIENT_ID."⟩ := by
  obtain ⟨cid, sk⟩ := cfg
  rcases cid with _ | c <;> rcases sk with _ | s <;>
    simp_all [truthyOpt, thirdwebHeaders, pyDictGet?]

/-- With at least one usable credential, `_thirdweb_headers` succeeds. -/
theorem thirdwebHeaders_isOk (cfg : ThirdwebConfig)
    (hcred : truthyOpt cfg.clientId = true ∨ truthyOpt cfg.secretKey = true) :
    ∃ hs, thirdwebHeaders cfg = .ok hs := by
  obtain ⟨cid, sk⟩ := cfg
  rcases cid with _ | c
  · rcases sk with _ | s
    · simp [truthyOpt] at hcred
    · have hs' : s ≠ "" := by simpa [truthyOpt] using hcred
      exact ⟨[("Content-Type", "application/json"), ("x-secret-key", s)],
        by simp [thirdwebHeaders, hs', pyDictGet?]⟩
  · rcases sk with _ | s
    · have hc : c ≠ "" := by simpa [truthyOpt] using hcred
      exact ⟨[("Content-Type", "application/json"), ("x-client-id", c)],
        by simp [thirdwebHeaders, hc, pyDictGet?]⟩
    · by_cases hc : c = ""
      · have hs' : s ≠ "" := by
          rcases hcred with h | h
          · simp [truthyOpt, hc] at h
          · simpa [truthyOpt] using h
        exact ⟨[("Content-Type", "application/json"), ("x-secret-key", s)],
          by simp [thirdwebHeaders, hc, hs', pyDictGet?]⟩
      · by_cases hsx : s = ""
        · exact ⟨[("Content-Type", "application/json"), ("x-client-id", c)],
            by simp [thirdwebHeaders, hc, hsx, pyDictGet?]⟩
        · exact ⟨[("Content-Type", "application/json"), ("x-client-id", c),
              ("x-secret-key", s)],
            by simp [thirdwebHeaders, hc, hsx, pyDictGet?]⟩

/-- With credentials present, a sub-400 provider response is returned as
parsed JSON. -/
theorem postThirdweb_ok (cfg : ThirdwebConfig)
    (hcred : truthyOpt cfg.clientId = true ∨ truthyOpt cfg.secretKey = true)
    (st : Nat) (text : String) (js : Json) (hlt : st < 400) :
    postThirdweb cfg (.response st text js) = .ok js := by
  obtain ⟨hs, hh⟩ := thirdwebHeaders_isOk cfg hcred
  have h5 : ¬ (st ≥ 500) := by omega
  have h4 : ¬ (st ≥ 400) := by omega
  simp [postThirdweb, hh, h5, h4]

/-- C8 (amended): the provider gateway fails with the 500 configuration
error — for every possible network outcome, hence before any request is
sent — when neither credential is available; with a credential it fails
with 502 on a network-level failure or a provider 5xx, and on a provider
4xx it fails with the provider's status code and its response body as
detail, substituting a fixed rejection message when that body is empty. -/
theorem c8_provider_gateway (cfg : ThirdwebConfig) :
    ((truthyOpt cfg.clientId = false ∧ truthyOpt cfg.secretKey = false) →
      ∀ outcome : ProviderOutcome,
        postThirdweb cfg outcome
          = .error ⟨500, "Thirdweb credentials are not configured. Set THIRDWEB_SECRET_KEY or THIRDWEB_CLIENT_ID."⟩)
    ∧ ((truthyOpt cfg.clientId = true ∨ truthyOpt cfg.secretKey = true) →
        (∀ msg : String,
          postThirdweb cfg (.netFailure msg)
            = .error ⟨502, "Failed to reach thirdweb API: " ++ msg⟩)
        ∧ (∀ (st : Nat) (text : String) (js : Json), 500 ≤ st →
            postThirdweb cfg (.response st text js)
              = .error ⟨502, "Thirdweb API returned an upstream error."⟩)
        ∧ (∀ (st : Nat) (text : String) (js : Json), 400 ≤ st → st < 500 →
            text ≠ "" →
            postThirdweb cfg (.response st text js) = .error ⟨st, text⟩)
        ∧ (∀ (st : Nat) (js : Json), 400 ≤ st → st < 500 →
            postThirdweb cfg (.response st "" js)
              = .error ⟨st, "Thirdweb request rejected."⟩)) := by
  constructor
  · intro ⟨hc, hsk⟩ outcome
    have h := thirdwebHeaders_error_of_no_cred cfg hc hsk
    cases outcome <;> simp [postThirdweb, h]
  · intro hcred
    obtain ⟨hs, hh⟩ := thirdwebHeaders_isOk cfg hcred
    refine ⟨?_, ?_, ?_, ?_⟩
    · intro msg
      simp [postThirdweb, hh]
    · intro st text js h5
      simp [postThirdweb, hh, h5]
    · intro st text js h4 h5 hne
      have hge : ¬ (st ≥ 500) := by omega
      simp [postThirdweb, hh, hge, h4, pyStrOr, hne]
    · intro st js h4 h5
      have hge : ¬ (st ≥ 500) := by omega
      simp [postThirdweb, hh, hge, h4, pyStrOr]

/-- C8 counterexample: a provider 4xx with an empty response body is
reported with the fixed rejection message rather than the (empty) body, so
"the provider's response body as detail" fails at this input. -/
theorem c8_counterexample :
    postThirdweb cfg0 (.response 404 "" .null)
        = .error ⟨404, "Thirdweb request rejected."⟩
    ∧ "Thirdweb request rejected." ≠ "" :=
  ⟨rfl, by decide⟩

/-- C8 witness: the no-credential 500 at a concrete configuration and
outcome, and a nonempty-body 404 passthrough at a concrete configuration. -/
theorem c8_witness :
    postThirdweb cfgNone (.netFailure "boom")
        = .error ⟨500, "Thirdweb credentials are not configured. Set THIRDWEB_SECRET_KEY or THIRDWEB_CLIENT_ID."⟩
    ∧ postThirdweb cfg0 (.response 404 "not found" .null)
        = .error ⟨404, "not found"⟩ :=
  ⟨(c8_provider_gateway cfgNone).1 ⟨rfl, rfl⟩ (.netFailure "boom"),
   ((c8_provider_gateway cfg0).2 (Or.inr rfl)).2.2.1 404 "not found" .null
     (by omega) (by omega) (by decide)⟩

-- ---------------------------------------------------------------------------
-- Claim C6 — bridge response normalization
-- ---------------------------------------------------------------------------

/-- C6: when the provider answers a bridge execution with a 2xx JSON
object, the returned result has `state = submitted`, `bridgeTraceId` equal
to the response's `result.transactionId` (null when the `result` key or
the `transactionId` key is absent), and the full provider response under
the `thirdweb` diagnostics key (the key the specification renames
generically to `provider`). -/
theorem c6_bridge_response_normalization (cfg : ThirdwebConfig)
    (intent : TransactionIntent) (transfer : TransferMetadata)
    (bridge : BridgeMetadata) (ht : intent.transfer = some transfer)
    (hb : intent.bridge = some bridge)
    (hcred : truthyOpt cfg.clientId = true ∨ truthyOpt cfg.secretKey = true)
    (st : Nat) (text : String) (js : Json) (h2a : 200 ≤ st) (h2b : st ≤ 299) :
    (∀ fields : List (String × Json), js = .obj fields →
      pyDictGet? fields "result" = none →
      execute_bridge cfg (.response st text js) intent
        = .ok { intentId := intent.id, provider := intent.provider,
                state := .submitted, bridgeTraceId := .null,
                diagnostics := some [("thirdweb", js)] })
    ∧ (∀ (fields inner : List (String × Json)), js = .obj fields →
      pyDictGet? fields "result" = some (.obj inner) →
      execute_bridge cfg (.response st text js) intent
        = .ok { intentId := intent.id, provider := intent.provider,
                state := .submitted,
                bridgeTraceId := (pyDictGet? inner "transactionId").getD .null,
                diagnostics := some [("thirdweb", js)] }) := by
  have hpost : postThirdweb cfg (.response st text js) = .ok js :=
    postThirdweb_ok cfg hcred st text js (by omega)
  constructor
  · intro fields hjs hres
    subst hjs
    rw [execute_bridge]
    simp [ht, hb, hpost, getTransactionId, hres, pyDictGet?]
  · intro fields inner hjs hres
    subst hjs
    rw [execute_bridge]
    simp [ht, hb, hpost, getTransactionId, hres]

/-- C6 witness: a concrete bridge execution against a 200 response whose
body carries `result.transactionId = "tx-1"`. -/
theorem c6_witness :
    execute_bridge cfg0 okOutcome (bridgeIntent (some transfer0) (some bridge0) none)
      = .ok { intentId := "intent-1", provider := .thirdweb_server,
              state := .submitted,
              bridgeTraceId := .str "tx-1",
              diagnostics := some
                [("thirdweb",
                  .obj [("result", .obj [("transactionId", .str "tx-1")])])] } :=
  (c6_bridge_response_normalization cfg0
    (bridgeIntent (some transfer0) (some bridge0) none) transfer0 bridge0
    rfl rfl (Or.inr rfl) 200 ""
    (.obj [("result", .obj [("transactionId", .str "tx-1")])])
    (by omega) (by omega)).2
    [("result", .obj [("transactionId", .str "tx-1")])]
    [("transactionId", .str "tx-1")] rfl rfl

-- ---------------------------------------------------------------------------
-- Auth resolver success shape
-- ---------------------------------------------------------------------------

/-- A successfully resolved context is exactly the record the source
builds: the looked-up key definition, its configured tier, the normalized
scope union, the extracted bearer token, and the passthrough headers. -/
theorem get_auth_context_ok (apiKeys : List (String × ApiKeyDefinition))
    (h : Headers) (ctx : AuthContext)
    (hok : get_auth_context apiKeys h = .ok ctx) :
    ∃ (kh : String) (apiKey : ApiKeyDefinition),
      h.xApiKey = some kh ∧ kh ≠ "" ∧ pyDictGet? apiKeys kh = some apiKey
      ∧ ctx = { apiKey := apiKey, tier := apiKey.tier,
                scopes := normalizeScopeSet (scopesOf apiKey h.xNexRequiredScopes),
                authToken := bearerTokenOf h.authorization,
                agentId := h.xNexAgentId, sessionId := h.xNexSessionId,
                walletProvider := h.xNexWalletProvider } := by
  rw [get_auth_context] at hok
  rcases hxk : h.xApiKey with _ | kh
  · rw [hxk] at hok
    exact Except.noConfusion hok
  · rw [hxk] at hok
    simp only at hok
    by_cases hkh : kh = ""
    · rw [if_pos hkh] at hok
      exact Except.noConfusion hok
    · rw [if_neg hkh] at hok
      rcases hlk : pyDictGet? apiKeys kh with _ | apiKey
      · rw [hlk] at hok
        exact Except.noConfusion hok
      · rw [hlk] at hok
        simp only at hok
        split at hok
        · exact Except.noConfusion hok
        · split at hok
          · exact Except.noConfusion hok
          · refine ⟨kh, apiKey, rfl, hkh, hlk, ?_⟩
            injection hok with h'
            exact h'.symm

-- ---------------------------------------------------------------------------
-- Claim C4 — tier header cross-check
-- ---------------------------------------------------------------------------

/-- C4 (amended): for a known API key, the `X-Nex-Tier` header value is
lowercased before inspection; a lowercased value outside {free, paid}
fails with BadRequest (400), a lowercased value inside {free, paid} that
differs from the key's configured tier fails with Forbidden (403), and a
successfully resolved context always carries the key's configured tier
(the header is never coerced into it). -/
theorem c4_tier_header_cross_check (apiKeys : List (String × ApiKeyDefinition))
    (h : Headers) (kh : String) (apiKey : ApiKeyDefinition)
    (hxk : h.xApiKey = some kh) (hkh : kh ≠ "")
    (hlk : pyDictGet? apiKeys kh = some apiKey) :
    (∀ v : String, h.xNexTier = some v →
      pyLower v ≠ "free" → pyLower v ≠ "paid" →
      get_auth_context apiKeys h = .error ⟨400, "Invalid X-Nex-Tier header."⟩)
    ∧ (∀ v : String, h.xNexTier = some v →
        (pyLower v = "free" ∨ pyLower v = "paid") →
        pyLower v ≠ tierStr apiKey.tier →
        get_auth_context apiKeys h
          = .error ⟨403, tierMismatchDetail (tierStr apiKey.tier) (pyLower v)⟩)
    ∧ (∀ ctx : AuthContext, get_auth_context apiKeys h = .ok ctx →
        ctx.tier = apiKey.tier) := by
  refine ⟨?_, ?_, ?_⟩
  · intro v hv hf hp
    rw [get_auth_context, hxk]
    simp only [hv]
    rw [if_neg hkh, hlk]
    simp only
    rw [if_pos]
    simp [hf, hp]
  · intro v hv hvalid hmis
    rw [get_auth_context, hxk]
    simp only [hv]
    rw [if_neg hkh, hlk]
    simp only
    rw [if_neg, if_pos hmis]
    simp [hvalid]
  · intro ctx hok
    obtain ⟨kh', apiKey', hxk', _, hlk', hctx⟩ :=
      get_auth_context_ok apiKeys h ctx hok
    have hk : kh' = kh := by
      rw [hxk] at hxk'
      exact (Option.some.inj hxk').symm
    subst hk
    rw [hlk] at hlk'
    have ha : apiKey' = apiKey := (Option.some.inj hlk').symm
    subst ha
    rw [hctx]

/-- C4 counterexample: the header value "PAID" is outside {free, paid} as
a string, yet against a free-tier key the code lowercases it and answers
403 (tier mismatch), not the 400 the claim as stated requires. -/
theorem c4_counterexample :
    exceptStatus?
        (get_auth_context keysFree
          { xApiKey := some "k1", xNexTier := some "PAID" }) = some 403
    ∧ ("PAID" ≠ "free" ∧ "PAID" ≠ "paid") :=
  ⟨by decide, by decide⟩

/-- C4 witness: a lowercase-invalid header value is rejected with 400, at
a concrete store and header set. -/
theorem c4_witness :
    get_auth_context keysFree { xApiKey := some "k1", xNexTier := some "gold" }
      = .error ⟨400, "Invalid X-Nex-Tier header."⟩ :=
  (c4_tier_header_cross_check keysFree
    { xApiKey := some "k1", xNexTier := some "gold" } "k1" keyFree rfl
    (by decide) rfl).1 "gold" rfl (by decide) (by decide)

-- ---------------------------------------------------------------------------
-- Claim C9 — bearer token extraction
-- ---------------------------------------------------------------------------

/-- C9 (amended): for a successfully resolved context with a non-empty
`Authorization` header, the header value is first stripped of surrounding
whitespace; if the stripped value has the case-insensitive prefix
`Bearer ` the token is the rest after that prefix, itself stripped;
otherwise the token is the stripped value (not the raw header byte-for-
byte). -/
theorem c9_bearer_token_extraction (apiKeys : List (String × ApiKeyDefinition))
    (h : Headers) (ctx : AuthContext)
    (hok : get_auth_context apiKeys h = .ok ctx) (a : String)
    (ha : h.authorization = some a) (hne : a ≠ "") :
    (pyStartsWith (pyLower (pyStrip a)) "bearer " = true →
      ctx.authToken = some (pyStrip (pyDrop (pyStrip a) 7)))
    ∧ (pyStartsWith (pyLower (pyStrip a)) "bearer " = false →
      ctx.authToken = some (pyStrip a)) := by
  obtain ⟨kh, apiKey, _, _, _, hctx⟩ := get_auth_context_ok apiKeys h ctx hok
  have htok : ctx.authToken = bearerTokenOf h.authorization := by
    rw [hctx]
  rw [ha] at htok
  constructor
  · intro hsw
    rw [htok, bearerTokenOf]
    simp [hne, hsw]
  · intro hsw
    rw [htok, bearerTokenOf]
    simp [hne, hsw]

/-- C9 counterexample: the non-bearer header value " x " is not passed
through verbatim — the resolved token is the stripped value "x". -/
theorem c9_counterexample :
    authTokenOf
        (get_auth_context keysFree
          { xApiKey := some "k1", authorization := some " x " }) = some "x"
    ∧ "x" ≠ " x " :=
  ⟨by decide, by decide⟩

/-- C9 witness: the amended extraction on a concrete resolved context with
an upper-case bearer prefix. -/
theorem c9_witness :
    authTokenOf
        (get_auth_context keysFree
          { xApiKey := some "k1", authorization := some "BEARER tok" })
      = some (pyStrip (pyDrop (pyStrip "BEARER tok") 7)) := by
  have h := c9_bearer_token_extraction keysFree
    { xApiKey := some "k1", authorization := some "BEARER tok" }
    { apiKey := keyFree, tier := keyFree.tier,
      scopes := normalizeScopeSet (scopesOf keyFree none),
      authToken := bearerTokenOf (some "BEARER tok"),
      agentId := none, sessionId := none, walletProvider := none }
    rfl "BEARER tok" rfl (by decide)
  exact h.1 (by decide)

end Spec2Proof
